import Mathlib

/-!
Shallow embedding of `scripts/extract-gif-frames.py` (zm-draw repository).

The script is a single linear pipeline: check the input file exists, open the
GIF, reject single-frame inputs, resolve the sampling stride and output
directory, create the directory, loop over source indices
`range(0, total_frames, skip)` saving at most `max_frames` frames as PNG files,
and return `(output_dir, extracted)`.

The embedding models the decoder (`PIL.Image.open` result) and the filesystem
as an explicit environment, and `extract_frames` as a pure function from that
environment to an effect trace `Outcome`: which directory was created (if any),
the ordered list of frame files written, and how the process run terminated
(normal return, `sys.exit(1)` with a printed message, or an unhandled Python
exception).  Python integers are `Int` (arbitrary precision), Python `//` is
`Int.fdiv` (floor division), and Python `range` lengths follow CPython's
`get_len_of_range` computation.
-/

namespace ZmDraw

/-- Python exceptions that the script can raise but never catches:
`ZeroDivisionError` from `total_frames // max_frames` with `max_frames == 0`,
`ValueError` from `range(0, n, 0)` or a failing `int(...)` parse, and
`FileExistsError` from `os.makedirs` (impossible here since the script passes
`exist_ok=True`). -/
inductive PyExc where
  | zeroDivision
  | valueError
  | fileExistsError
deriving DecidableEq

/-- How the process run ends: a normal return of `(output_dir, extracted)`
from `extract_frames`, a `print(msg)` followed by `sys.exit(1)`, or an
unhandled exception propagating out (Python then exits non-zero). -/
inductive Term where
  | ret (outputDir : String) (extracted : Nat)
  | exited (msg : String)
  | raised (e : PyExc)
deriving DecidableEq

/-- Process exit status for each termination: 0 on a normal return, 1 for
`sys.exit(1)`, and 1 for an unhandled exception (CPython's default). -/
def exitStatus : Term → Nat
  | Term.ret _ _ => 0
  | Term.exited _ => 1
  | Term.raised _ => 1

/-- The decoder handle produced by `Image.open`: `nFrames` is
`getattr(img, 'n_frames', 1)` (already defaulted to 1 when the attribute is
missing); `duration i` is the value of `img.info.get('duration')` once frame
`i` is the active frame (`none` when the container provides no duration);
`rgba i` abstracts the bytes of `img.seek(i); img.convert("RGBA")` saved as
PNG.  Decoding is deterministic: both are functions of the index. -/
structure Decoder where
  nFrames : Nat
  duration : Int → Option Nat
  rgba : Int → Nat

/-- The environment the script runs against: whether `os.path.exists(gif_path)`
holds, the decoder handle for that path, and whether the resolved output
directory already exists before the run. -/
structure Env where
  fileExists : Bool
  img : Decoder
  dirExists : Bool

/-- One frame file written by the loop body: the dense sequence index
(`extracted` at write time), the source frame index `i`, the duration in ms
(`img.info.get('duration', 0)`), the filename, and the saved PNG bytes. -/
structure FrameFile where
  seq : Nat
  srcIndex : Int
  durationMs : Nat
  name : String
  content : Nat
deriving DecidableEq

/-- Python `f"{n:03d}"` for a non-negative integer: the decimal digits,
left-padded with `'0'` to a minimum width of 3. -/
def pad3 (n : Nat) : String :=
  if (toString n).length < 3 then
    String.mk (List.replicate (3 - (toString n).length) '0') ++ toString n
  else toString n

/-- The output filename
`f"frame_{extracted:03d}_f{i}_d{duration}ms.png"` from line 54 of the script. -/
def frameName (extracted : Nat) (i : Int) (duration : Nat) : String :=
  "frame_" ++ pad3 extracted ++ "_f" ++ toString i ++ "_d" ++ toString duration
    ++ "ms.png"

/-- The loop body (lines 48-56): seek to `i`, convert the active frame to
RGBA, read its duration defaulting to 0, build the output path and save. -/
def mkFrame (img : Decoder) (extracted : Nat) (i : Int) : FrameFile :=
  let duration := (img.duration i).getD 0
  { seq := extracted, srcIndex := i, durationMs := duration,
    name := frameName extracted i duration, content := img.rgba i }

/-- The extraction loop (lines 44-56): walk the candidate source indices,
break before processing the current candidate once `extracted >= max_frames`,
otherwise save the frame and increment the counter. -/
def extractLoop (img : Decoder) (max_frames : Int) :
    List Int → Nat → List FrameFile
  | [], _ => []
  | i :: rest, extracted =>
    if max_frames ≤ (extracted : Int) then []
    else mkFrame img extracted i :: extractLoop img max_frames rest (extracted + 1)

/-- Number of elements of Python `range(start, stop, step)` for `step != 0`,
mirroring CPython's `get_len_of_range`: when the range is non-empty in the
step's direction the count is `(|hi - lo| - 1) // |step| + 1`, else 0.  The
`step = 0` case (a `ValueError` in Python) is guarded before this is called. -/
def pyRangeLen (start stop step : Int) : Nat :=
  if 0 < step then
    if start < stop then ((stop - start - 1).fdiv step + 1).toNat else 0
  else if step < 0 then
    if stop < start then ((start - stop - 1).fdiv (-step) + 1).toNat else 0
  else 0

/-- The elements of Python `range(start, stop, step)`, in iteration order. -/
def pyRange (start stop step : Int) : List Int :=
  (List.range (pyRangeLen start stop step)).map
    fun (k : Nat) => start + step * (k : Int)

/-- Lines 28-29: `if skip is None: skip = max(1, total_frames // max_frames)`.
An explicit `skip` is used unchanged; with `skip` omitted and
`max_frames == 0` the floor division raises `ZeroDivisionError`. -/
def resolveSkip (total_frames : Nat) (max_frames : Int) :
    Option Int → Except PyExc Int
  | some s => Except.ok s
  | none =>
    if max_frames = 0 then Except.error PyExc.zeroDivision
    else Except.ok (max 1 (Int.fdiv (total_frames : Int) max_frames))

/-- `os.makedirs(output_dir, exist_ok=...)`: with a pre-existing directory and
`exist_ok=False` it raises `FileExistsError`; otherwise it succeeds.  The
script always passes `exist_ok=True` (line 36). -/
def makedirs (dirExists : Bool) (exist_ok : Bool) : Except PyExc Unit :=
  if dirExists && !exist_ok then Except.error PyExc.fileExistsError
  else Except.ok ()

/-- Index of the last occurrence of `c` in `cs`, or `none`
(Python `str.rfind`, with -1 mapped to `none`). -/
def lastIdx (cs : List Char) (c : Char) : Option Nat :=
  (List.range cs.length).foldl
    (fun acc k => if cs[k]? = some c then some k else acc) none

/-- `os.path.splitext(p)[0]` (POSIX): drop the extension, which starts at the
last `'.'` of the basename provided some earlier basename character is not a
dot (so dotfiles like `.bashrc` keep their name). -/
def splitextRoot (p : String) : String :=
  let cs := p.data
  let fnameIdx : Nat :=
    match lastIdx cs '/' with
    | some j => j + 1
    | none => 0
  match lastIdx cs '.' with
  | none => p
  | some dot =>
    if fnameIdx ≤ dot then
      if (List.range' fnameIdx (dot - fnameIdx)).any
          (fun k => cs[k]? != some '.') then
        String.mk (cs.take dot)
      else p
    else p

/-- The observable effects of one `extract_frames` run: the directory created
by `os.makedirs` (if execution reached line 36), the ordered frame files
written, and how the run terminated. -/
structure Outcome where
  dirCreated : Option String
  files : List FrameFile
  term : Term
deriving DecidableEq

/-- `extract_frames(gif_path, max_frames=30, skip=None, output_dir=None)`
(lines 15-59), as a pure function of the environment.  Order of effects
matches the script: existence check, open + single-frame check, stride
resolution (possible `ZeroDivisionError`), output-directory derivation,
`makedirs`, then the loop (`range(0, total_frames, 0)` would raise
`ValueError` after the directory was created). -/
def extract_frames (env : Env) (gif_path : String) (max_frames : Int)
    (skip : Option Int) (output_dir : Option String) : Outcome :=
  if !env.fileExists then
    { dirCreated := none, files := [],
      term := Term.exited ("Error: File not found: " ++ gif_path) }
  else
    let total_frames := env.img.nFrames
    if total_frames = 1 then
      { dirCreated := none, files := [],
        term := Term.exited ("Error: Not an animated GIF (only 1 frame)") }
    else
      match resolveSkip total_frames max_frames skip with
      | Except.error e =>
        { dirCreated := none, files := [], term := Term.raised e }
      | Except.ok stride =>
        let outDir := output_dir.getD (splitextRoot gif_path ++ "_frames")
        match makedirs env.dirExists true with
        | Except.error e =>
          { dirCreated := none, files := [], term := Term.raised e }
        | Except.ok _ =>
          if stride = 0 then
            { dirCreated := some outDir, files := [],
              term := Term.raised PyExc.valueError }
          else
            let files :=
              extractLoop env.img max_frames
                (pyRange 0 (total_frames : Int) stride) 0
            { dirCreated := some outDir, files := files,
              term := Term.ret outDir files.length }

/-- The mutable state of the `__main__` argument scan (lines 67-70):
`max_frames` starts at 30, `skip` and `output_dir` at `None`. -/
structure CliState where
  max_frames : Int
  skip : Option Int
  output_dir : Option String
deriving DecidableEq

deriving instance DecidableEq for Except

/-- Decimal value of a non-empty all-digit character list, else `none`. -/
def digitsToNat (cs : List Char) : Option Nat :=
  if !cs.isEmpty && cs.all (fun c => c.isDigit) then
    some (cs.foldl (fun a c => a * 10 + (c.toNat - 48)) 0)
  else none

/-- Python `int(s)` on the strings this script receives: an optionally signed
decimal integer literal, `none` meaning `ValueError`.  (Python's extra
leniency — surrounding whitespace and `_` digit separators — is not modelled;
no claim depends on it.) -/
def pyInt (s : String) : Option Int :=
  match s.data with
  | '-' :: cs => (digitsToNat cs).map fun n => -(n : Int)
  | '+' :: cs => (digitsToNat cs).map fun n => (n : Int)
  | cs => (digitsToNat cs).map fun n => (n : Int)

/-- The `while i < len(args)` scanner of lines 72-85: each of the three flags
consumes its value when one follows (`i += 2`), a failing `int(...)` raises
`ValueError`, and any other token — including a flag with no following
value — is skipped one token at a time (`i += 1`). -/
def scanArgs : List String → CliState → Except PyExc CliState
  | a :: v :: rest, st =>
    if a = "--max-frames" then
      match pyInt v with
      | some n => scanArgs rest { st with max_frames := n }
      | none => Except.error PyExc.valueError
    else if a = "--skip" then
      match pyInt v with
      | some n => scanArgs rest { st with skip := some n }
      | none => Except.error PyExc.valueError
    else if a = "--output-dir" then
      scanArgs rest { st with output_dir := some v }
    else
      scanArgs (v :: rest) st
  | [_], st => Except.ok st
  | [], st => Except.ok st

/-! ### Helper lemmas about the loop and `range` semantics -/

/-- The loop emits `min |candidates| (max_frames - extracted)` frames. -/
theorem extractLoop_length (img : Decoder) (m : Int) (L : List Int) :
    ∀ e : Nat, (extractLoop img m L e).length = min L.length (m - e).toNat := by
  induction L with
  | nil => intro e; simp [extractLoop]
  | cons i rest ih =>
    intro e
    by_cases h : m ≤ (e : Int)
    · simp only [extractLoop, if_pos h, List.length_nil, List.length_cons]
      omega
    · simp only [extractLoop, if_neg h, List.length_cons, ih (e + 1)]
      omega

/-- The `k`-th frame the loop emits comes from the `k`-th candidate index,
with sequence number `e + k`. -/
theorem extractLoop_getElem? (img : Decoder) (m : Int) (L : List Int) :
    ∀ (e k : Nat), k < (extractLoop img m L e).length →
      (extractLoop img m L e)[k]? = (L[k]?).map (mkFrame img (e + k)) := by
  induction L with
  | nil => intro e k hk; simp [extractLoop] at hk
  | cons i rest ih =>
    intro e k hk
    by_cases h : m ≤ (e : Int)
    · rw [extractLoop, if_pos h] at hk; simp at hk
    · rw [extractLoop, if_neg h] at hk ⊢
      cases k with
      | zero => simp
      | succ k' =>
        have hk' : k' < (extractLoop img m rest (e + 1)).length := by
          simpa using hk
        have he : e + 1 + k' = e + (k' + 1) := by omega
        simp only [List.getElem?_cons_succ, ih (e + 1) k' hk', he]

/-- Once the counter has reached the cap, the loop stops before touching the
pending candidate: no seek, no decode, no save. -/
theorem extractLoop_stop (img : Decoder) (m : Int) (i : Int) (rest : List Int)
    (e : Nat) (h : m ≤ (e : Int)) : extractLoop img m (i :: rest) e = [] := by
  simp [extractLoop, h]

/-- For a positive stride over `0..total-1` with `total ≥ 1`, the number of
candidates is `⌈total / s⌉ = (total + s - 1) / s`. -/
theorem pyRangeLen_pos (total s : Nat) (h1 : 1 ≤ total) (hs : 1 ≤ s) :
    pyRangeLen 0 (total : Int) (s : Int) = (total + s - 1) / s := by
  have h0 : (0 : Int) < (s : Int) := by exact_mod_cast hs
  have h0t : (0 : Int) < (total : Int) := by exact_mod_cast h1
  rw [pyRangeLen, if_pos h0, if_pos h0t]
  have hsub : (total : Int) - 0 - 1 = ((total - 1 : Nat) : Int) := by
    push_cast [h1]; ring
  rw [hsub, ← Int.ofNat_fdiv]
  have : (((total - 1) / s : Nat) : Int) + 1 = (((total - 1) / s + 1 : Nat) : Int) := by
    push_cast; ring
  rw [this, Int.toNat_ofNat]
  have hsplit : total + s - 1 = (total - 1) + s := by omega
  rw [hsplit, Nat.add_div_right _ (by omega : 0 < s)]

/-- A negative stride makes `range(0, total, s)` empty for `total ≥ 0`
(this matches Python: the iteration runs zero times). -/
theorem pyRange_neg (total : Nat) (s : Int) (hs : s < 0) :
    pyRange 0 (total : Int) s = [] := by
  have h1 : ¬ (0 : Int) < s := by omega
  have h2 : ¬ (total : Int) < 0 := by omega
  simp [pyRange, pyRangeLen, h1, h2, hs]

/-- Normal form of a successful run with an explicit non-zero stride and an
explicit output directory: the directory is created and the files are exactly
what the loop produces. -/
theorem extract_frames_ok (env : Env) (p dir : String) (m s : Int)
    (hex : env.fileExists = true) (h2 : 2 ≤ env.img.nFrames) (hs : s ≠ 0) :
    extract_frames env p m (some s) (some dir) =
      { dirCreated := some dir,
        files := extractLoop env.img m (pyRange 0 (env.img.nFrames : Int) s) 0,
        term := Term.ret dir
          (extractLoop env.img m (pyRange 0 (env.img.nFrames : Int) s) 0).length } := by
  have h1 : env.img.nFrames ≠ 1 := by omega
  simp [extract_frames, hex, h1, resolveSkip, makedirs, hs]

/-! ### Concrete environments used by the witnesses -/

/-- A 10-frame animated GIF that exists on disk, every frame with a 40 ms
duration; output directory not yet present. -/
def wEnv : Env :=
  { fileExists := true,
    img := { nFrames := 10, duration := fun _ => some 40, rgba := fun i => i.toNat },
    dirExists := false }

/-- An existing single-frame (non-animated) image. -/
def wEnvOne : Env :=
  { fileExists := true,
    img := { nFrames := 1, duration := fun _ => none, rgba := fun _ => 0 },
    dirExists := false }

/-- A path with no file behind it. -/
def wEnvMissing : Env :=
  { fileExists := false,
    img := { nFrames := 10, duration := fun _ => none, rgba := fun _ => 0 },
    dirExists := false }

/-- Concrete paths and output directory used by the witnesses. -/
def pGif : String := "a.gif"

def pMissing : String := "missing.gif"

def dOut : String := "out"

/-! ### Claims -/

/-- C5: for every existing container whose total frame count equals 1,
`extract_frames` prints the `NotAnimatedError` message and exits with status 1;
no frame file is written and the output directory is not created — the failure
happens before any filesystem side effect. -/
theorem claim_C5 (env : Env) (p : String) (m : Int) (s : Option Int)
    (d : Option String) (hex : env.fileExists = true)
    (h1 : env.img.nFrames = 1) :
    extract_frames env p m s d
      = { dirCreated := none, files := [],
          term := Term.exited ("Error: Not an animated GIF (only 1 frame)") } ∧
    exitStatus (extract_frames env p m s d).term = 1 := by
  constructor
  · simp [extract_frames, hex, h1]
  · simp [extract_frames, hex, h1, exitStatus]

theorem claim_C5_witness :
    extract_frames wEnvOne pGif 30 none none
      = { dirCreated := none, files := [],
          term := Term.exited ("Error: Not an animated GIF (only 1 frame)") } ∧
    exitStatus (extract_frames wEnvOne pGif 30 none none).term = 1 :=
  claim_C5 wEnvOne pGif 30 none none rfl rfl

/-- C6: for every containerPath that does not reference an existing file,
`extract_frames` prints the `NotFoundError` message and exits with status 1;
no output directory is created, no file is written, and no exception
propagates past the top level (the termination is an exit, not a raise). -/
theorem claim_C6 (env : Env) (p : String) (m : Int) (s : Option Int)
    (d : Option String) (hex : env.fileExists = false) :
    extract_frames env p m s d
      = { dirCreated := none, files := [],
          term := Term.exited ("Error: File not found: " ++ p) } ∧
    exitStatus (extract_frames env p m s d).term = 1 ∧
    (∀ e : PyExc, (extract_frames env p m s d).term ≠ Term.raised e) := by
  have h : extract_frames env p m s d
      = { dirCreated := none, files := [],
          term := Term.exited ("Error: File not found: " ++ p) } := by
    simp [extract_frames, hex]
  refine ⟨h, ?_, ?_⟩
  · rw [h]; rfl
  · intro e; rw [h]; simp

theorem claim_C6_witness :
    extract_frames wEnvMissing pMissing 30 none none
      = { dirCreated := none, files := [],
          term := Term.exited ("Error: File not found: " ++ pMissing) } ∧
    exitStatus (extract_frames wEnvMissing pMissing 30 none none).term = 1 ∧
    (∀ e : PyExc,
      (extract_frames wEnvMissing pMissing 30 none none).term
        ≠ Term.raised e) :=
  claim_C6 wEnvMissing pMissing 30 none none rfl

/-- C7: a second run with identical arguments against an unchanged input, now
with the output directory already existing, has exactly the same effect trace
(same filenames, byte-identical contents, same return) as the first run —
it overwrites the same files; and a pre-existing output directory is not an
error since `os.makedirs` is called with `exist_ok=True`. -/
theorem claim_C7 (env : Env) (p : String) (m : Int) (s : Option Int)
    (d : Option String) :
    extract_frames { env with dirExists := true } p m s d
      = extract_frames env p m s d ∧
    makedirs true true = Except.ok () := by
  constructor
  · simp [extract_frames, makedirs]
  · rfl

/-- C9: an explicitly supplied negative stride makes `range(0, totalFrames,
stride)` empty, so the loop body runs zero times: the output directory is
still created, no frame file is written, and the call returns
`(outputDir, 0)` with exit status 0 — no error is reported. -/
theorem claim_C9 (env : Env) (p dir : String) (m s : Int)
    (hex : env.fileExists = true) (h2 : 2 ≤ env.img.nFrames) (hs : s < 0) :
    extract_frames env p m (some s) (some dir)
      = { dirCreated := some dir, files := [], term := Term.ret dir 0 } ∧
    exitStatus (extract_frames env p m (some s) (some dir)).term = 0 := by
  have hs0 : s ≠ 0 := by omega
  have h := extract_frames_ok env p dir m s hex h2 hs0
  rw [pyRange_neg env.img.nFrames s hs] at h
  refine ⟨?_, ?_⟩
  · rw [h]; simp [extractLoop]
  · rw [h]; rfl

theorem claim_C9_witness :
    extract_frames wEnv pGif 30 (some (-3)) (some dOut)
      = { dirCreated := some dOut, files := [], term := Term.ret dOut 0 } ∧
    exitStatus (extract_frames wEnv pGif 30 (some (-3)) (some dOut)).term
      = 0 :=
  claim_C9 wEnv pGif dOut 30 (-3) rfl (by decide) (by decide)

/-- C10: with `maxFrames = 0` and the stride omitted, an existing container
with at least 2 frames passes the existence and animation checks and then
crashes on `total_frames // 0` with an unhandled `ZeroDivisionError` — a
termination that is neither of the spec's reported-and-exited errors nor a
normal return. -/
theorem claim_C10 (env : Env) (p : String) (d : Option String)
    (hex : env.fileExists = true) (h2 : 2 ≤ env.img.nFrames) :
    extract_frames env p 0 none d
      = { dirCreated := none, files := [],
          term := Term.raised PyExc.zeroDivision } ∧
    (∀ msg : String, (extract_frames env p 0 none d).term ≠ Term.exited msg) ∧
    (∀ (dir : String) (n : Nat),
      (extract_frames env p 0 none d).term ≠ Term.ret dir n) := by
  have h1 : env.img.nFrames ≠ 1 := by omega
  have h : extract_frames env p 0 none d
      = { dirCreated := none, files := [],
          term := Term.raised PyExc.zeroDivision } := by
    simp [extract_frames, hex, h1, resolveSkip]
  refine ⟨h, ?_, ?_⟩
  · intro msg; rw [h]; simp
  · intro dir n; rw [h]; simp

theorem claim_C10_witness :
    extract_frames wEnv pGif 0 none (some dOut)
      = { dirCreated := none, files := [],
          term := Term.raised PyExc.zeroDivision } ∧
    (∀ msg : String,
      (extract_frames wEnv pGif 0 none (some dOut)).term
        ≠ Term.exited msg) ∧
    (∀ (dir : String) (n : Nat),
      (extract_frames wEnv pGif 0 none (some dOut)).term
        ≠ Term.ret dir n) :=
  claim_C10 wEnv pGif (some dOut) rfl (by decide)

/-- C1: for every container with `totalFrames ≥ 2`, `maxFrames ≥ 1` and
`stride ≥ 1`, `extract_frames` writes exactly
`min maxFrames ⌈totalFrames / stride⌉` frame files and returns that number
as its extracted count. -/
theorem claim_C1 (env : Env) (p dir : String) (m s : Nat)
    (hex : env.fileExists = true) (h2 : 2 ≤ env.img.nFrames)
    (hm : 1 ≤ m) (hs : 1 ≤ s) :
    (extract_frames env p (m : Int) (some (s : Int)) (some dir)).files.length
      = min m ((env.img.nFrames + s - 1) / s) ∧
    (extract_frames env p (m : Int) (some (s : Int)) (some dir)).term
      = Term.ret dir (min m ((env.img.nFrames + s - 1) / s)) := by
  have hs0 : (s : Int) ≠ 0 := by omega
  rw [extract_frames_ok env p dir (m : Int) (s : Int) hex h2 hs0]
  have hlen :
      (extractLoop env.img (m : Int)
        (pyRange 0 (env.img.nFrames : Int) (s : Int)) 0).length
        = min m ((env.img.nFrames + s - 1) / s) := by
    rw [extractLoop_length]
    have hr : (pyRange 0 (env.img.nFrames : Int) (s : Int)).length
        = (env.img.nFrames + s - 1) / s := by
      simp only [pyRange, List.length_map, List.length_range]
      rw [pyRangeLen_pos env.img.nFrames s (by omega) hs]
    rw [hr]
    omega
  exact ⟨hlen, by rw [hlen]⟩

theorem claim_C1_witness :
    (extract_frames wEnv pGif ((3 : Nat) : Int) (some ((4 : Nat) : Int))
        (some dOut)).files.length
      = min 3 ((wEnv.img.nFrames + 4 - 1) / 4) ∧
    (extract_frames wEnv pGif ((3 : Nat) : Int) (some ((4 : Nat) : Int))
        (some dOut)).term
      = Term.ret dOut (min 3 ((wEnv.img.nFrames + 4 - 1) / 4)) :=
  claim_C1 wEnv pGif dOut 3 4 rfl (by decide) (by decide) (by decide)

/-- C2: when the stride is omitted it is computed as
`max 1 (totalFrames // maxFrames)` (Python floor division), and an explicitly
supplied stride is used unchanged — running with the stride omitted is the
same as running with that computed stride supplied explicitly. -/
theorem claim_C2 (env : Env) (p : String) (d : Option String) (m s : Int)
    (hex : env.fileExists = true) (h2 : 2 ≤ env.img.nFrames) (hm : 1 ≤ m) :
    resolveSkip env.img.nFrames m none
      = Except.ok (max 1 (Int.fdiv (env.img.nFrames : Int) m)) ∧
    resolveSkip env.img.nFrames m (some s) = Except.ok s ∧
    extract_frames env p m none d
      = extract_frames env p m
          (some (max 1 (Int.fdiv (env.img.nFrames : Int) m))) d := by
  have h0 : m ≠ 0 := by omega
  refine ⟨by simp [resolveSkip, h0], rfl, ?_⟩
  simp [extract_frames, resolveSkip, h0]

theorem claim_C2_witness :
    resolveSkip wEnv.img.nFrames 3 none
      = Except.ok (max 1 (Int.fdiv (wEnv.img.nFrames : Int) 3)) ∧
    resolveSkip wEnv.img.nFrames 3 (some 7) = Except.ok 7 ∧
    extract_frames wEnv pGif 3 none (some dOut)
      = extract_frames wEnv pGif 3
          (some (max 1 (Int.fdiv (wEnv.img.nFrames : Int) 3))) (some dOut) :=
  claim_C2 wEnv pGif (some dOut) 3 7 rfl (by decide) (by decide)

/-- C3: for every valid input the running `extracted` counter never exceeds
`maxFrames`: the loop stops before seeking, decoding or saving the pending
candidate as soon as the counter reaches `maxFrames`, every written file has
sequence number below `maxFrames`, and the returned count is at most
`maxFrames`. -/
theorem claim_C3 (env : Env) (p dir : String) (m s : Nat)
    (hex : env.fileExists = true) (h2 : 2 ≤ env.img.nFrames)
    (hm : 1 ≤ m) (hs : 1 ≤ s) :
    (∀ (i : Int) (rest : List Int) (e : Nat), (m : Int) ≤ (e : Int) →
        extractLoop env.img (m : Int) (i :: rest) e = []) ∧
    (extract_frames env p (m : Int) (some (s : Int)) (some dir)).files.length
      ≤ m ∧
    (∀ f ∈ (extract_frames env p (m : Int) (some (s : Int)) (some dir)).files,
      f.seq < m) ∧
    (∀ (d' : String) (n : Nat),
      (extract_frames env p (m : Int) (some (s : Int)) (some dir)).term
        = Term.ret d' n → n ≤ m) := by
  have hs0 : (s : Int) ≠ 0 := by omega
  rw [extract_frames_ok env p dir (m : Int) (s : Int) hex h2 hs0]
  have hlen :
      (extractLoop env.img (m : Int)
        (pyRange 0 (env.img.nFrames : Int) (s : Int)) 0).length
      = min (pyRange 0 (env.img.nFrames : Int) (s : Int)).length
          (((m : Int) - (0 : Nat)).toNat) :=
    extractLoop_length _ _ _ 0
  refine ⟨fun i rest e he => extractLoop_stop _ _ i rest e he, ?_, ?_, ?_⟩
  · rw [hlen]; omega
  · intro f hf
    obtain ⟨k, hk⟩ := List.mem_iff_getElem?.mp hf
    have hklt : k < (extractLoop env.img (m : Int)
        (pyRange 0 (env.img.nFrames : Int) (s : Int)) 0).length :=
      (List.getElem?_eq_some_iff.mp hk).1
    rw [extractLoop_getElem? _ _ _ 0 k hklt] at hk
    have hkr : k < (pyRange 0 (env.img.nFrames : Int) (s : Int)).length := by
      rw [hlen] at hklt; omega
    rw [List.getElem?_eq_getElem hkr, Option.map_some'] at hk
    have hseq : f.seq = k := by
      have hmk := congrArg FrameFile.seq (Option.some.inj hk)
      simp [mkFrame] at hmk
      omega
    rw [hseq]
    rw [hlen] at hklt; omega
  · intro d' n hterm
    have : n = (extractLoop env.img (m : Int)
        (pyRange 0 (env.img.nFrames : Int) (s : Int)) 0).length := by
      injection hterm with h1 h2'
      omega
    rw [this, hlen]; omega

/-- The padded sequence index always has at least 3 characters: its length is
the maximum of 3 and the number of decimal digits. -/
theorem pad3_length (n : Nat) : (pad3 n).length = max 3 (toString n).length := by
  unfold pad3
  by_cases h : (toString n).length < 3
  · rw [if_pos h, String.length_append]
    have hrep : (String.mk (List.replicate (3 - (toString n).length) '0')).length
        = 3 - (toString n).length := by
      show (List.replicate (3 - (toString n).length) '0').length = _
      exact List.length_replicate _ _
    omega
  · rw [if_neg h]; omega

/-- C4: the `k`-th file written has dense zero-based sequence index `k`
(zero-padded to at least 3 digits), source index `k * stride`, duration
`img.info.get('duration', 0)` for that frame, and the name
`frame_{seq}_f{sourceIndex}_d{durationMs}ms.png` — PNG being the still
format with per-pixel alpha the script saves (`convert("RGBA")`). -/
theorem claim_C4 (env : Env) (p dir : String) (m s : Nat)
    (hex : env.fileExists = true) (h2 : 2 ≤ env.img.nFrames)
    (hm : 1 ≤ m) (hs : 1 ≤ s) :
    ∀ k : Nat,
      k < (extract_frames env p (m : Int) (some (s : Int))
            (some dir)).files.length →
      (extract_frames env p (m : Int) (some (s : Int)) (some dir)).files[k]?
        = some { seq := k, srcIndex := ((s * k : Nat) : Int),
                 durationMs :=
                   (env.img.duration ((s * k : Nat) : Int)).getD 0,
                 name := "frame_" ++ pad3 k ++ "_f"
                   ++ toString ((s * k : Nat) : Int) ++ "_d"
                   ++ toString
                     ((env.img.duration ((s * k : Nat) : Int)).getD 0)
                   ++ "ms.png",
                 content := env.img.rgba ((s * k : Nat) : Int) } ∧
      (pad3 k).length = max 3 (toString k).length := by
  have hs0 : (s : Int) ≠ 0 := by omega
  have hok := extract_frames_ok env p dir (m : Int) (s : Int) hex h2 hs0
  have hfiles :
      (extract_frames env p (m : Int) (some (s : Int)) (some dir)).files
        = extractLoop env.img (m : Int)
            (pyRange 0 (env.img.nFrames : Int) (s : Int)) 0 := by
    rw [hok]
  intro k hk
  rw [hfiles] at hk ⊢
  refine ⟨?_, pad3_length k⟩
  rw [extractLoop_getElem? _ _ _ 0 k hk]
  have hlen := extractLoop_length env.img (m : Int)
    (pyRange 0 (env.img.nFrames : Int) (s : Int)) 0
  have hkr : k < (pyRange 0 (env.img.nFrames : Int) (s : Int)).length := by
    omega
  rw [List.getElem?_eq_getElem hkr, Option.map_some']
  have hidx : (pyRange 0 (env.img.nFrames : Int) (s : Int))[k]
      = ((s * k : Nat) : Int) := by
    simp [pyRange]
  rw [hidx]
  simp [mkFrame, frameName]

theorem claim_C4_witness :
    (extract_frames wEnv pGif ((3 : Nat) : Int) (some ((4 : Nat) : Int))
        (some dOut)).files[1]?
      = some { seq := 1, srcIndex := ((4 * 1 : Nat) : Int),
               durationMs :=
                 (wEnv.img.duration ((4 * 1 : Nat) : Int)).getD 0,
               name := "frame_" ++ pad3 1 ++ "_f"
                 ++ toString ((4 * 1 : Nat) : Int) ++ "_d"
                 ++ toString
                   ((wEnv.img.duration ((4 * 1 : Nat) : Int)).getD 0)
                 ++ "ms.png",
               content := wEnv.img.rgba ((4 * 1 : Nat) : Int) } ∧
    (pad3 1).length = max 3 (toString 1).length :=
  claim_C4 wEnv pGif dOut 3 4 rfl (by decide) (by decide) (by decide)
    1 (by decide)

/-- C8: any argument token that is not one of the three recognized flags with
a following value — an unknown flag, or a recognized flag at the very end
with no value after it — is skipped one token at a time without error, and
the scan of the remaining tokens proceeds from an unchanged state. -/
theorem claim_C8 (a : String) (rest : List String) (st : CliState)
    (h : ¬ (a = "--max-frames" ∨ a = "--skip" ∨ a = "--output-dir")
        ∨ rest = []) :
    scanArgs (a :: rest) st = scanArgs rest st := by
  cases rest with
  | nil => rfl
  | cons v rest' =>
    rcases h with h | h
    · push_neg at h
      obtain ⟨h1, h2, h3⟩ := h
      simp [scanArgs, h1, h2, h3]
    · simp at h

theorem claim_C8_witness :
    scanArgs ("--verbose" :: ["--max-frames", "7"])
        { max_frames := 30, skip := none, output_dir := none }
      = scanArgs ["--max-frames", "7"]
        { max_frames := 30, skip := none, output_dir := none } :=
  claim_C8 ("--verbose") ["--max-frames", "7"]
    { max_frames := 30, skip := none, output_dir := none }
    (Or.inl (by decide))

theorem claim_C3_witness :
    (∀ (i : Int) (rest : List Int) (e : Nat),
        ((3 : Nat) : Int) ≤ (e : Int) →
        extractLoop wEnv.img ((3 : Nat) : Int) (i :: rest) e = []) ∧
    (extract_frames wEnv pGif ((3 : Nat) : Int) (some ((4 : Nat) : Int))
        (some dOut)).files.length ≤ 3 ∧
    (∀ f ∈ (extract_frames wEnv pGif ((3 : Nat) : Int)
        (some ((4 : Nat) : Int)) (some dOut)).files, f.seq < 3) ∧
    (∀ (d' : String) (n : Nat),
      (extract_frames wEnv pGif ((3 : Nat) : Int) (some ((4 : Nat) : Int))
          (some dOut)).term = Term.ret d' n → n ≤ 3) :=
  claim_C3 wEnv pGif dOut 3 4 rfl (by decide) (by decide) (by decide)

end ZmDraw
